import Mathlib

/-!
Shallow embedding of the two dashboard scripts of the repository
(`streamlit_main_findings.py`, the CO2 dashboard, and the green-bonds
dashboard script) together with proofs of the behavioural claims about
them.  Pandas tables become lists of records, float columns become
`Option ℚ` (a missing value / NaN is `none`), and the page scripts become
total functions whose result type distinguishes normal rendering, inline
error messages that stop the page, and an uncaught exception propagating
out of the script.
-/

/-- One row of the CO2 table: a country-year observation.  Every column the
scripts touch is optional, a `none` standing for a missing value (NaN). -/
structure Row where
  country : Option String
  year : Option ℚ
  co2 : Option ℚ
  co2_per_capita : Option ℚ
  population : Option ℚ
  iso_code : Option String
deriving DecidableEq

/-- A pandas DataFrame: its column names plus its rows.  Optional columns
(`iso_code`, `population`) are present exactly when their name is in
`columns`; a table lacking such a column has `none` in that field of every
row. -/
structure Table where
  columns : List String
  rows : List Row
deriving DecidableEq

/-- `chMatch p l` holds when the character list `p` is an initial segment
of `l` (Python `str.startswith`). -/
def chMatch : List Char → List Char → Bool
  | [], _ => true
  | _ :: _, [] => false
  | a :: ps, b :: ls => a == b && chMatch ps ls

/-- `chFind p l` holds when `p` occurs as a contiguous segment of `l`
(Python `in` on strings / `str.contains` without regex alternation). -/
def chFind (p : List Char) : List Char → Bool
  | [] => chMatch p []
  | b :: ls => chMatch p (b :: ls) || chFind p ls

/-- ASCII lower-casing of a string (Python `str.lower` on the ASCII
country names the scripts deal with). -/
def lowerStr (s : String) : String := ⟨s.data.map Char.toLower⟩

/-- `strContains s pat`: `pat` is a substring of `s`. -/
def strContains (s pat : String) : Bool := chFind pat.data s.data

/-- The aggregate-name test of both ranking tabs:
`d["country"].str.contains("World|International", case=False, na=False)`.
A missing country (`na=False`) does not match. -/
def containsAggName : Option String → Bool
  | none => false
  | some s => strContains (lowerStr s) "world" || strContains (lowerStr s) "international"

/-- The iso-code exclusion test of both ranking tabs:
`d["iso_code"].isin(["OWID_WRL","OWID_KOS"])`.  `isin` is false on a
missing value. -/
def isoExcludedCode : Option String → Bool
  | none => false
  | some c => c == "OWID_WRL" || c == "OWID_KOS"

/-- The population test of the per-capita tab:
`d_pc["population"] > 1_000_000`; a NaN comparison is false, so a row
with missing population is dropped by the filter. -/
def popGtMillion (r : Row) : Bool :=
  match r.population with
  | none => false
  | some p => decide (1000000 < p)

/-- Truncation toward zero, the behaviour of `.astype(int)` on a float
column. -/
def truncQ (q : ℚ) : ℤ := q.num.tdiv (q.den : ℤ)

/-- `co2["year"] = co2["year"].astype(int)` applied to one row. -/
def coerceYear (r : Row) : Row :=
  { r with year := r.year.map (fun q => ((truncQ q : ℤ) : ℚ)) }

/-- The basic clean of the CO2 script (lines 39-40):
`co2 = co2.dropna(subset=["country","year"])` followed by
`co2["year"] = co2["year"].astype(int)`. -/
def basicClean (rows : List Row) : List Row :=
  (rows.filter (fun r => r.country.isSome && r.year.isSome)).map coerceYear

/-- Stable descending insertion: `a` goes in front of the first element
holding a strictly smaller key, so earlier rows win ties (pandas
`nlargest` with its default `keep="first"`). -/
def insertDesc {α : Type} (key : α → ℚ) (a : α) : List α → List α
  | [] => [a]
  | b :: l => if key b < key a then a :: b :: l else b :: insertDesc key a l

/-- Stable descending sort by `key`. -/
def sortDesc {α : Type} (key : α → ℚ) : List α → List α
  | [] => []
  | a :: l => insertDesc key a (sortDesc key l)

/-- `df.nlargest(n, col)`: the first `n` rows of the stable descending
sort by the column. -/
def nlargest {α : Type} (key : α → ℚ) (n : Nat) (l : List α) : List α :=
  (sortDesc key l).take n

/-- Ranking key of the Top Emitters tab (the `co2` column; the rows that
reach the sort have passed `dropna(subset=["co2"])`, so the default is
never read). -/
def co2Key (r : Row) : ℚ := r.co2.getD 0

/-- Ranking key of the per-capita tab (the `co2_per_capita` column). -/
def pcKey (r : Row) : ℚ := r.co2_per_capita.getD 0

/-- The filter chain of the Top Emitters tab (lines 58-62): select the
ranking year, drop World/International names, drop the two OWID iso codes
when the column exists, then `dropna(subset=["co2"])`. -/
def tab8Candidates (t : Table) (y : ℤ) : List Row :=
  let d0 := t.rows.filter (fun r => decide (r.year = some (y : ℚ)))
  let d1 := d0.filter (fun r => !containsAggName r.country)
  let d2 := if t.columns.contains "iso_code"
            then d1.filter (fun r => !isoExcludedCode r.iso_code)
            else d1
  d2.filter (fun r => r.co2.isSome)

/-- `top = d.nlargest(10, "co2")` of the Top Emitters tab (line 63). -/
def tab8Top (t : Table) (y : ℤ) : List Row :=
  nlargest co2Key 10 (tab8Candidates t y)

/-- The filter chain of the per-capita tab (lines 129-137): select the
year, drop the two OWID iso codes when the column exists, drop
World/International names, keep population strictly above one million when
the column exists, then `dropna(subset=["co2_per_capita"])`. -/
def tab10Candidates (t : Table) (y : ℤ) : List Row :=
  let d0 := t.rows.filter (fun r => decide (r.year = some (y : ℚ)))
  let d1 := if t.columns.contains "iso_code"
            then d0.filter (fun r => !isoExcludedCode r.iso_code)
            else d0
  let d2 := d1.filter (fun r => !containsAggName r.country)
  let d3 := if t.columns.contains "population"
            then d2.filter popGtMillion
            else d2
  d3.filter (fun r => r.co2_per_capita.isSome)

/-- `top_pc = d_pc.nlargest(10, "co2_per_capita")` (line 138). -/
def tab10Top (t : Table) (y : ℤ) : List Row :=
  nlargest pcKey 10 (tab10Candidates t y)

/-- Outcome of the data-acquisition phase of the CO2 script
(lines 22-32). -/
inductive LoadOutcome
  | proceed (t : Table)
  | inlineErrorStop (msg : String)
  | inlineInfoStop (msg : String)
  | crashed (msg : String)
deriving DecidableEq

/-- An outcome is caught when the script itself produced it (a rendered
page or an inline `st.error`/`st.info` plus `st.stop`), as opposed to an
exception escaping the script. -/
def LoadOutcome.isCaught : LoadOutcome → Bool
  | .crashed _ => false
  | _ => true

/-- Lines 22-32 of the CO2 script.  The default-dataset fetch is wrapped
in `try/except` with `st.error` + `st.stop`; the upload branch's
`pd.read_csv(file)` (line 32) is not wrapped, so a parse exception
propagates out of the script. -/
def co2LoadData (useDefault : Bool) (fetch : Except String Table)
    (file : Option (Except String Table)) : LoadOutcome :=
  if useDefault then
    match fetch with
    | .ok t => .proceed t
    | .error e => .inlineErrorStop ("Could not load default dataset: " ++ e)
  else
    match file with
    | none => .inlineInfoStop "Upload a CSV to continue."
    | some (.error e) => .crashed e
    | some (.ok t) => .proceed t

/-- The column list of the required-column loop (line 35). -/
def requiredCols : List String := ["country", "year", "co2", "co2_per_capita"]

/-- The first required column missing from the table, if any; the loop of
lines 35-38 stops the page at that column. -/
def missingCol (t : Table) : Option String :=
  requiredCols.find? (fun c => !(t.columns.contains c))

/-- Everything the tab bodies of the CO2 script compute from the cleaned
table (tab 9 only draws a line chart of a fixed subset of rows and
computes nothing the claims mention). -/
structure Co2Output where
  cleaned : List Row
  topEmitters : List Row
  topPerCapita : List Row
deriving DecidableEq

/-- Result of one full run of the CO2 page script. -/
inductive ScriptResult
  | halted (msg : String)
  | haltedInfo (msg : String)
  | crashed (msg : String)
  | rendered (out : Co2Output)
deriving DecidableEq

/-- The CO2 page script, top to bottom: acquire the table (lines 22-32),
check the required columns (lines 35-38), basic-clean (lines 39-40), then
run the tab computations.  `st.stop` makes every later computation
unreachable, which the `halted` results reflect. -/
def co2Script (useDefault : Bool) (fetch : Except String Table)
    (file : Option (Except String Table)) (yearForRank yearPc : ℤ) : ScriptResult :=
  match co2LoadData useDefault fetch file with
  | .inlineErrorStop m => .halted m
  | .inlineInfoStop m => .haltedInfo m
  | .crashed m => .crashed m
  | .proceed t =>
    match missingCol t with
    | some c => .halted ("Missing required column: " ++ c)
    | none =>
      let cleaned := basicClean t.rows
      let tc : Table := { columns := t.columns, rows := cleaned }
      .rendered { cleaned := cleaned
                , topEmitters := tab8Top tc yearForRank
                , topPerCapita := tab10Top tc yearPc }

/-- A Python function of the project module, as the green-bonds script
sees it: its name, whether `inspect.signature` succeeds on it, and whether
the function object itself carries a `savefig` attribute. -/
structure PyFun where
  name : String
  sigOk : Bool
  hasSavefigAttr : Bool
deriving DecidableEq

/-- The user's project module: the list of its functions, in the order
`inspect.getmembers` yields them. -/
structure PyModule where
  functions : List PyFun
deriving DecidableEq

/-- The naming-convention test of `find_plot_functions` (line 52):
`lower.startswith(section_prefix) or (lower.startswith("plot") and
section_prefix in lower)` where `lower = name.lower()`. -/
def nameMatch (sectionPre : String) (f : PyFun) : Bool :=
  let lower := lowerStr f.name
  chMatch sectionPre.data lower.data ||
    (chMatch "plot".data lower.data && strContains lower sectionPre)

/-- `find_plot_functions(mod, section_prefix)` (lines 45-59): an imported
module is scanned for functions matching the naming convention, keeping
those whose signature can be inspected; with no module the list is
empty. -/
def find_plot_functions (mod : Option PyModule) (sectionPre : String) : List PyFun :=
  match mod with
  | none => []
  | some m => m.functions.filter (fun f => nameMatch sectionPre f && f.sigOk)

/-- The explicit fallback names tried for Section 8 (line 116). -/
def explicitNames8 : List String :=
  ["plot_section8_graph1", "plot_section8_graph2", "plot_section8", "plot_s8"]

/-- The explicit fallback names tried for Section 9 (line 122). -/
def explicitNames9 : List String :=
  ["plot_section9_graph1", "plot_section9_graph2", "plot_section9", "plot_s9"]

/-- `getattr(project_mod, name, None)` followed by the `callable` test:
the module's function of that name, if any. -/
def getFunByName (m : PyModule) (n : String) : Option PyFun :=
  m.functions.find? (fun f => f.name == n)

/-- The plot functions a section ends up with (lines 112-125): those of
`find_plot_functions`, and when that list is empty and the module was
imported, the functions found under the section's explicit fallback
names. -/
def sectionFunctions (mod : Option PyModule) (sectionPre : String)
    (names : List String) : List PyFun :=
  let fns := find_plot_functions mod sectionPre
  match mod with
  | none => fns
  | some m => if fns.isEmpty then names.filterMap (getFunByName m) else fns

/-- What one call of a user plotting function does. -/
inductive CallOutcome
  | returnsFig
  | returnsOther
  | raisesTypeError (msg : String)
  | raisesOther (msg : String)
deriving DecidableEq

/-- What `run_and_capture_plot` renders for one function. -/
inductive RenderOutcome
  | pyplotFigure
  | pyplotCurrent
  | warned (msg : String)
  | nothingShown
  | crashed (msg : String)
deriving DecidableEq

/-- A render outcome is a crash when an exception escaped to the
caller. -/
def RenderOutcome.isCrash : RenderOutcome → Bool
  | .crashed _ => true
  | _ => false

/-- `run_and_capture_plot(fn)` (lines 61-81).  A returned figure (an
object with `savefig`) is rendered, any other return falls back to the
current figure; a `TypeError` lands in the handler that inspects the
function object itself (rendering it when it happens to carry `savefig`,
silently doing nothing otherwise); every other exception becomes an
`st.warning`. -/
def run_and_capture_plot (fn : PyFun) (call : CallOutcome) : RenderOutcome :=
  match call with
  | .returnsFig => .pyplotFigure
  | .returnsOther => .pyplotCurrent
  | .raisesTypeError _ =>
      if fn.hasSavefigAttr then .pyplotFigure else .nothingShown
  | .raisesOther msg =>
      .warned ("Error when running " ++ fn.name ++ ": " ++ msg)

/-- What a section's upload block renders (lines 133-139 and 165-171):
no upload, a parsed preview plus demo chart, or the `st.error` of the
`except` branch.  `crashed` exists to state that this block never
produces it. -/
inductive UploadRender
  | noUpload
  | preview
  | parseError (msg : String)
  | crashed (msg : String)
deriving DecidableEq

/-- The `try: df = pd.read_csv(uploaded) ... except Exception as e:
st.error(...)` block of a section; the whole body is inside the `try`, so
a parse failure becomes an inline `st.error` and the page goes on. -/
def sectionUploadRender (label : String)
    (uploaded : Option (Except String Table)) : UploadRender :=
  match uploaded with
  | none => .noUpload
  | some (.error e) => .parseError ("Could not parse " ++ label ++ " CSV: " ++ e)
  | some (.ok _) => .preview

/-- What a section shows for its figures: the project module's functions,
or the warning plus built-in demo chart. -/
inductive SectionRender
  | projectFigures (names : List String)
  | fallbackDemo (warning : String)
deriving DecidableEq

/-- Lines 141-148 / 173-180: with no detected functions the section warns
and shows the demo chart; otherwise it runs the detected functions. -/
def renderSection (label : String) (fns : List PyFun) : SectionRender :=
  if fns.isEmpty then
    .fallbackDemo ("No " ++ label ++ " plotting functions detected in " ++
      "ee_105_group_project.py. Showing demo chart instead.")
  else
    .projectFigures (fns.map PyFun.name)

/-- Everything the green-bonds page renders that the claims mention.  The
script has no `st.stop`: every section renders on every run. -/
structure GreenBondsPage where
  upload8 : UploadRender
  section8 : SectionRender
  upload9 : UploadRender
  section9 : SectionRender
  section10Rendered : Bool
  footerRendered : Bool
deriving DecidableEq

/-- The green-bonds page script, top to bottom: import the project
module, collect each section's functions, render Section 8, Section 9,
the static Section 10 and the footer. -/
def greenBondsPage (mod : Option PyModule)
    (u8 u9 : Option (Except String Table)) : GreenBondsPage :=
  { upload8 := sectionUploadRender "Section 8" u8
  , section8 := renderSection "Section 8" (sectionFunctions mod "section8" explicitNames8)
  , upload9 := sectionUploadRender "Section 9" u9
  , section9 := renderSection "Section 9" (sectionFunctions mod "section9" explicitNames9)
  , section10Rendered := true
  , footerRendered := true }
/-- A fully populated sample row (used by the concrete witnesses). -/
def mkRow (c : Option String) (y v pc pop : Option ℚ) (iso : Option String) : Row :=
  { country := c, year := y, co2 := v, co2_per_capita := pc
  , population := pop, iso_code := iso }

/-- Sample rows for the year 2014. -/
def rChina : Row :=
  mkRow (some "China") (some 2014) (some 10000) (some 7) (some 1400000000) (some "CHN")

def rUSA : Row :=
  mkRow (some "United States") (some 2014) (some 5000) (some 15) (some 330000000) (some "USA")

def rWorld : Row :=
  mkRow (some "World") (some 2014) (some 35000) (some 5) (some 7000000000) (some "OWID_WRL")

def rQatar : Row :=
  mkRow (some "Qatar") (some 2014) (some 100) (some 35) (some 2700000) (some "QAT")

def rTiny : Row :=
  mkRow (some "Tinyland") (some 2014) (some 2) (some 50) (some 50000) (some "TNY")

/-- A sample table holding every optional column. -/
def sampleTable : Table :=
  { columns := ["country", "year", "co2", "co2_per_capita", "population", "iso_code"]
  , rows := [rChina, rUSA, rWorld, rQatar, rTiny] }

/-- A table whose column list lacks `co2_per_capita`. -/
def tableMissingCol : Table := { columns := ["country", "year", "co2"], rows := [] }

/-- The rational 2015.5, built directly in lowest terms. -/
def halfYearQ : ℚ := ⟨4031, 2, by decide, by decide⟩

/-- A row with a fractional year (as a float year column can hold). -/
def rHalfYear : Row :=
  mkRow (some "China") (some halfYearQ) (some 1) (some 1) none none

/-- A row with a missing country, dropped by the basic clean. -/
def rNoCountry : Row := mkRow none (some 2000) (some 3) (some 3) none none

/-- A module with one matching and one non-matching function. -/
def pmodPlots : PyModule :=
  { functions := [ { name := "plot_section8_graph1", sigOk := true, hasSavefigAttr := false }
                 , { name := "load_data", sigOk := true, hasSavefigAttr := false } ] }

/-- A module with no plotting functions at all. -/
def pmodNoPlots : PyModule :=
  { functions := [ { name := "load_data", sigOk := true, hasSavefigAttr := false } ] }


theorem mem_insertDesc {α : Type} (key : α → ℚ) (a x : α) :
    ∀ l : List α, x ∈ insertDesc key a l ↔ x = a ∨ x ∈ l := by
  intro l
  induction l with
  | nil => simp [insertDesc]
  | cons b l ih =>
    by_cases h : key b < key a
    · simp [insertDesc, h]
    · simp only [insertDesc, if_neg h, List.mem_cons, ih]
      tauto

theorem length_insertDesc {α : Type} (key : α → ℚ) (a : α) :
    ∀ l : List α, (insertDesc key a l).length = l.length + 1 := by
  intro l
  induction l with
  | nil => simp [insertDesc]
  | cons b l ih =>
    by_cases h : key b < key a
    · simp [insertDesc, h]
    · simp [insertDesc, h, ih]

theorem perm_insertDesc {α : Type} (key : α → ℚ) (a : α) :
    ∀ l : List α, List.Perm (insertDesc key a l) (a :: l) := by
  intro l
  induction l with
  | nil => simp [insertDesc]
  | cons b l ih =>
    by_cases h : key b < key a
    · simp [insertDesc, h]
    · simp only [insertDesc, if_neg h]
      exact (List.Perm.cons b ih).trans (List.Perm.swap a b l)

theorem perm_sortDesc {α : Type} (key : α → ℚ) :
    ∀ l : List α, List.Perm (sortDesc key l) l := by
  intro l
  induction l with
  | nil => simp [sortDesc]
  | cons a l ih =>
    exact (perm_insertDesc key a (sortDesc key l)).trans (List.Perm.cons a ih)

theorem length_sortDesc {α : Type} (key : α → ℚ) (l : List α) :
    (sortDesc key l).length = l.length :=
  (perm_sortDesc key l).length_eq

theorem mem_sortDesc {α : Type} (key : α → ℚ) (l : List α) (x : α) :
    x ∈ sortDesc key l ↔ x ∈ l :=
  (perm_sortDesc key l).mem_iff

theorem pairwise_insertDesc {α : Type} (key : α → ℚ) (a : α) :
    ∀ l : List α, l.Pairwise (fun x y => key y ≤ key x) →
      (insertDesc key a l).Pairwise (fun x y => key y ≤ key x) := by
  intro l
  induction l with
  | nil => simp [insertDesc]
  | cons b l ih =>
    intro hp
    rw [List.pairwise_cons] at hp
    by_cases h : key b < key a
    · rw [insertDesc, if_pos h, List.pairwise_cons]
      constructor
      · intro x hx
        rcases List.mem_cons.mp hx with hxb | hxl
        · exact le_of_lt (hxb ▸ h)
        · exact le_of_lt (lt_of_le_of_lt (hp.1 x hxl) h)
      · rw [List.pairwise_cons]
        exact hp
    · rw [insertDesc, if_neg h, List.pairwise_cons]
      constructor
      · intro x hx
        rcases (mem_insertDesc key a x l).mp hx with hxa | hxl
        · exact hxa ▸ le_of_not_lt h
        · exact hp.1 x hxl
      · exact ih hp.2

theorem pairwise_sortDesc {α : Type} (key : α → ℚ) :
    ∀ l : List α, (sortDesc key l).Pairwise (fun x y => key y ≤ key x) := by
  intro l
  induction l with
  | nil => simp [sortDesc]
  | cons a l ih => exact pairwise_insertDesc key a (sortDesc key l) ih

theorem pairwise_nlargest {α : Type} (key : α → ℚ) (n : Nat) (l : List α) :
    (nlargest key n l).Pairwise (fun x y => key y ≤ key x) :=
  (pairwise_sortDesc key l).sublist (List.take_sublist n (sortDesc key l))

theorem length_nlargest {α : Type} (key : α → ℚ) (n : Nat) (l : List α) :
    (nlargest key n l).length = min n l.length := by
  rw [nlargest, List.length_take, length_sortDesc]

theorem mem_of_mem_nlargest {α : Type} (key : α → ℚ) (n : Nat) (l : List α)
    (x : α) (h : x ∈ nlargest key n l) : x ∈ l :=
  (mem_sortDesc key l x).mp (List.mem_of_mem_take h)

theorem nlargest_perm_of_le {α : Type} (key : α → ℚ) (n : Nat) (l : List α)
    (h : l.length ≤ n) : List.Perm (nlargest key n l) l := by
  rw [nlargest, List.take_of_length_le (by rw [length_sortDesc]; exact h)]
  exact perm_sortDesc key l

theorem mem_tab8Candidates (t : Table) (y : ℤ) (r : Row)
    (h : r ∈ tab8Candidates t y) :
    r ∈ t.rows ∧ r.year = some (y : ℚ) ∧ containsAggName r.country = false ∧
      (t.columns.contains "iso_code" = true → isoExcludedCode r.iso_code = false) ∧
      r.co2.isSome = true := by
  unfold tab8Candidates at h
  rw [List.mem_filter] at h
  obtain ⟨h2, hco2⟩ := h
  split at h2
  next hiso =>
    rw [List.mem_filter] at h2
    obtain ⟨h1, hisoex⟩ := h2
    rw [List.mem_filter] at h1
    obtain ⟨h0, hagg⟩ := h1
    rw [List.mem_filter] at h0
    obtain ⟨hrow, hyr⟩ := h0
    exact ⟨hrow, of_decide_eq_true hyr, (Bool.not_eq_true' _) ▸ hagg,
      fun _ => (Bool.not_eq_true' _) ▸ hisoex, hco2⟩
  next hiso =>
    rw [List.mem_filter] at h2
    obtain ⟨h0, hagg⟩ := h2
    rw [List.mem_filter] at h0
    obtain ⟨hrow, hyr⟩ := h0
    exact ⟨hrow, of_decide_eq_true hyr, (Bool.not_eq_true' _) ▸ hagg,
      fun hc => absurd hc hiso, hco2⟩

theorem mem_tab10Candidates (t : Table) (y : ℤ) (r : Row)
    (h : r ∈ tab10Candidates t y) :
    r ∈ t.rows ∧ r.year = some (y : ℚ) ∧ containsAggName r.country = false ∧
      (t.columns.contains "iso_code" = true → isoExcludedCode r.iso_code = false) ∧
      (t.columns.contains "population" = true → popGtMillion r = true) ∧
      r.co2_per_capita.isSome = true := by
  unfold tab10Candidates at h
  rw [List.mem_filter] at h
  obtain ⟨h3, hpc⟩ := h
  have main : r ∈ t.rows ∧ r.year = some (y : ℚ) ∧
      containsAggName r.country = false ∧
      (t.columns.contains "iso_code" = true → isoExcludedCode r.iso_code = false) ∧
      (t.columns.contains "population" = true → popGtMillion r = true) := by
    split at h3
    next hpop =>
      rw [List.mem_filter] at h3
      obtain ⟨h2, hpopv⟩ := h3
      rw [List.mem_filter] at h2
      obtain ⟨h1, hagg⟩ := h2
      split at h1
      next hiso =>
        rw [List.mem_filter] at h1
        obtain ⟨h0, hisoex⟩ := h1
        rw [List.mem_filter] at h0
        obtain ⟨hrow, hyr⟩ := h0
        exact ⟨hrow, of_decide_eq_true hyr, (Bool.not_eq_true' _) ▸ hagg,
          fun _ => (Bool.not_eq_true' _) ▸ hisoex, fun _ => hpopv⟩
      next hiso =>
        rw [List.mem_filter] at h1
        obtain ⟨hrow, hyr⟩ := h1
        exact ⟨hrow, of_decide_eq_true hyr, (Bool.not_eq_true' _) ▸ hagg,
          fun hc => absurd hc hiso, fun _ => hpopv⟩
    next hpop =>
      rw [List.mem_filter] at h3
      obtain ⟨h1, hagg⟩ := h3
      split at h1
      next hiso =>
        rw [List.mem_filter] at h1
        obtain ⟨h0, hisoex⟩ := h1
        rw [List.mem_filter] at h0
        obtain ⟨hrow, hyr⟩ := h0
        exact ⟨hrow, of_decide_eq_true hyr, (Bool.not_eq_true' _) ▸ hagg,
          fun _ => (Bool.not_eq_true' _) ▸ hisoex, fun hc => absurd hc hpop⟩
      next hiso =>
        rw [List.mem_filter] at h1
        obtain ⟨hrow, hyr⟩ := h1
        exact ⟨hrow, of_decide_eq_true hyr, (Bool.not_eq_true' _) ▸ hagg,
          fun hc => absurd hc hiso, fun hc => absurd hc hpop⟩
  exact ⟨main.1, main.2.1, main.2.2.1, main.2.2.2.1, main.2.2.2.2, hpc⟩

theorem truncQ_intCast (n : ℤ) : truncQ (n : ℚ) = n := by
  rw [truncQ, Rat.num_intCast, Rat.den_intCast, Nat.cast_one, Int.tdiv_one]

theorem coerceYear_coerceYear (r : Row) : coerceYear (coerceYear r) = coerceYear r := by
  cases r with
  | mk c y co pc pop iso =>
    cases y with
    | none => rfl
    | some q => simp [coerceYear, truncQ_intCast]

theorem cleanPred_coerceYear (r : Row) :
    ((coerceYear r).country.isSome && (coerceYear r).year.isSome) =
      (r.country.isSome && r.year.isSome) := by
  cases hy : r.year <;> simp [coerceYear, hy]

theorem basicClean_idem (rows : List Row) :
    basicClean (basicClean rows) = basicClean rows := by
  unfold basicClean
  rw [List.filter_map, List.map_map, List.filter_filter]
  have hcc : coerceYear ∘ coerceYear = coerceYear := funext coerceYear_coerceYear
  rw [hcc]
  have hf : ∀ x ∈ rows,
      (((fun r : Row => r.country.isSome && r.year.isSome) ∘ coerceYear) x &&
        (x.country.isSome && x.year.isSome)) = (x.country.isSome && x.year.isSome) := by
    intro x _
    rw [Function.comp_apply, cleanPred_coerceYear, Bool.and_self]
  rw [List.filter_congr hf]

theorem mem_basicClean (rows : List Row) (r : Row) (h : r ∈ basicClean rows) :
    r.country.isSome = true ∧ ∃ n : ℤ, r.year = some (n : ℚ) := by
  unfold basicClean at h
  rw [List.mem_map] at h
  obtain ⟨r0, hr0, rfl⟩ := h
  rw [List.mem_filter] at hr0
  obtain ⟨_, hp⟩ := hr0
  obtain ⟨hc, hy⟩ := (Bool.and_eq_true _ _) ▸ hp
  cases hyv : r0.year with
  | none => rw [hyv] at hy; exact absurd hy (by simp)
  | some q =>
    refine ⟨hc, truncQ q, ?_⟩
    show (coerceYear r0).year = _
    rw [coerceYear]
    simp [hyv]

theorem basicClean_retains (rows : List Row) (r : Row) (h : r ∈ rows)
    (hc : r.country.isSome = true) (hy : r.year.isSome = true) :
    coerceYear r ∈ basicClean rows := by
  unfold basicClean
  rw [List.mem_map]
  exact ⟨r, List.mem_filter.mpr ⟨h, by rw [hc, hy]; rfl⟩, rfl⟩

/-- Claim C1: for every input table and ranking year, both top-10
computations (`top`, by `co2`, and `top_pc`, by `co2_per_capita`) return
rows sorted in descending order of the ranked value, and the result's
length is the minimum of 10 and the number of candidate rows left after
filtering — exactly 10 when at least 10 candidates remain, and, when the
data is sparse, all the remaining rows (a permutation of the
candidates). -/
theorem claim_c1_topn_sorted_and_sized (t : Table) (y : ℤ) :
    ((tab8Top t y).Pairwise (fun a b => co2Key b ≤ co2Key a) ∧
      (tab8Top t y).length = min 10 (tab8Candidates t y).length ∧
      ((tab8Candidates t y).length ≤ 10 →
        List.Perm (tab8Top t y) (tab8Candidates t y))) ∧
    ((tab10Top t y).Pairwise (fun a b => pcKey b ≤ pcKey a) ∧
      (tab10Top t y).length = min 10 (tab10Candidates t y).length ∧
      ((tab10Candidates t y).length ≤ 10 →
        List.Perm (tab10Top t y) (tab10Candidates t y))) :=
  ⟨⟨pairwise_nlargest co2Key 10 (tab8Candidates t y),
    length_nlargest co2Key 10 (tab8Candidates t y),
    fun h => nlargest_perm_of_le co2Key 10 (tab8Candidates t y) h⟩,
   ⟨pairwise_nlargest pcKey 10 (tab10Candidates t y),
    length_nlargest pcKey 10 (tab10Candidates t y),
    fun h => nlargest_perm_of_le pcKey 10 (tab10Candidates t y) h⟩⟩

/-- Witness for C1 on a concrete sparse table: both rankings are a
permutation of all remaining candidate rows. -/
theorem claim_c1_topn_sorted_and_sized_witness :
    List.Perm (tab8Top sampleTable 2014) (tab8Candidates sampleTable 2014) ∧
    List.Perm (tab10Top sampleTable 2014) (tab10Candidates sampleTable 2014) :=
  ⟨(claim_c1_topn_sorted_and_sized sampleTable 2014).1.2.2 (by decide),
   (claim_c1_topn_sorted_and_sized sampleTable 2014).2.2.2 (by decide)⟩

/-- Claim C2: no aggregate pseudo-country row — a country name containing
"World" or "International" (case-insensitively), or an iso code in the
OWID aggregate-code list of the script (`OWID_WRL`, `OWID_KOS`) — appears
in either top-10 ranking.  The hypothesis states the table/row coherence:
a table without an `iso_code` column has no iso code in any row. -/
theorem claim_c2_no_aggregates_in_rankings (t : Table) (y : ℤ)
    (hwf : t.columns.contains "iso_code" = false → ∀ r ∈ t.rows, r.iso_code = none) :
    ∀ r : Row, (r ∈ tab8Top t y ∨ r ∈ tab10Top t y) →
      containsAggName r.country = false ∧ isoExcludedCode r.iso_code = false := by
  intro r hr
  rcases hr with h8 | h10
  · have hc := mem_tab8Candidates t y r
      (mem_of_mem_nlargest co2Key 10 (tab8Candidates t y) r h8)
    refine ⟨hc.2.2.1, ?_⟩
    by_cases hiso : t.columns.contains "iso_code"
    · exact hc.2.2.2.1 hiso
    · rw [hwf ((Bool.not_eq_true _) ▸ hiso) r hc.1]
      rfl
  · have hc := mem_tab10Candidates t y r
      (mem_of_mem_nlargest pcKey 10 (tab10Candidates t y) r h10)
    refine ⟨hc.2.2.1, ?_⟩
    by_cases hiso : t.columns.contains "iso_code"
    · exact hc.2.2.2.1 hiso
    · rw [hwf ((Bool.not_eq_true _) ▸ hiso) r hc.1]
      rfl

/-- Witness for C2 at a concrete table and a concrete member of the
top-10 absolute ranking. -/
theorem claim_c2_no_aggregates_in_rankings_witness :
    containsAggName rChina.country = false ∧ isoExcludedCode rChina.iso_code = false :=
  claim_c2_no_aggregates_in_rankings sampleTable 2014 (by decide) rChina
    (Or.inl (by decide))

/-- Claim C3: on a fatal input error — the default-dataset fetch raising,
or the loaded table lacking a required column — the CO2 script halts with
an inline error and renders nothing further: the result is `halted`, so
no `Co2Output` (no tab computation) is produced. -/
theorem claim_c3_fatal_errors_halt :
    (∀ (e : String) (file : Option (Except String Table)) (y1 y2 : ℤ),
        co2Script true (.error e) file y1 y2 =
          .halted ("Could not load default dataset: " ++ e)) ∧
    (∀ (u : Bool) (fetch : Except String Table) (file : Option (Except String Table))
        (t : Table) (y1 y2 : ℤ) (c : String),
        co2LoadData u fetch file = .proceed t →
        c ∈ requiredCols → t.columns.contains c = false →
        ∃ m, co2Script u fetch file y1 y2 = .halted m) := by
  constructor
  · intro e file y1 y2
    rfl
  · intro u fetch file t y1 y2 c hload hc hmiss
    have hsome : (missingCol t).isSome := by
      rw [missingCol, List.find?_isSome]
      exact ⟨c, hc, by rw [hmiss]; rfl⟩
    cases hm : missingCol t with
    | none => rw [hm] at hsome; exact absurd hsome (by simp)
    | some c' =>
      refine ⟨"Missing required column: " ++ c', ?_⟩
      unfold co2Script
      simp only [hload, hm]

/-- Witness for C3: a failing fetch halts with the inline message, and a
concrete table missing `co2_per_capita` halts at the column check. -/
theorem claim_c3_fatal_errors_halt_witness :
    co2Script true (.error "boom") none 2014 2018 =
        .halted "Could not load default dataset: boom" ∧
    ∃ m, co2Script true (.ok tableMissingCol) none 2014 2018 = .halted m :=
  ⟨claim_c3_fatal_errors_halt.1 "boom" none 2014 2018,
   claim_c3_fatal_errors_halt.2 true (.ok tableMissingCol) none tableMissingCol
     2014 2018 "co2_per_capita" rfl (by decide) (by decide)⟩

/-- Claim C4 counterexample: in the CO2 script, with the default-dataset
toggle off and an uploaded file whose parse raises, the exception is NOT
caught — `pd.read_csv(file)` on line 32 sits outside any `try` block, so
the run ends in `crashed`, not in an inline message. -/
theorem claim_c4_counterexample :
    (co2LoadData false (.error "unused") (some (.error "bad CSV"))).isCaught = false := rfl

/-- Claim C4 as amended: in the green-bonds script a parse exception on
either section upload is caught and surfaced as an inline error message,
while in the CO2 script a parse exception on an uploaded CSV propagates
uncaught. -/
theorem claim_c4_parse_errors_amended (e : String) (fetch : Except String Table) :
    sectionUploadRender "Section 8" (some (.error e)) =
        .parseError ("Could not parse Section 8 CSV: " ++ e) ∧
    sectionUploadRender "Section 9" (some (.error e)) =
        .parseError ("Could not parse Section 9 CSV: " ++ e) ∧
    co2LoadData false fetch (some (.error e)) = .crashed e :=
  ⟨rfl, rfl, rfl⟩

/-- Claim C5: in the green-bonds script, whenever a section ends up with
no plotting function (including when the module could not be imported),
that section renders the fallback demo chart with its warning, and the
page keeps rendering everything else (the other section, Section 10 and
the footer are produced on every run; the script has no stop). -/
theorem claim_c5_fallback_demo (mod : Option PyModule)
    (u8 u9 : Option (Except String Table)) :
    (sectionFunctions mod "section8" explicitNames8 = [] →
      (greenBondsPage mod u8 u9).section8 = .fallbackDemo
        ("No Section 8 plotting functions detected in " ++
          "ee_105_group_project.py. Showing demo chart instead.")) ∧
    (sectionFunctions mod "section9" explicitNames9 = [] →
      (greenBondsPage mod u8 u9).section9 = .fallbackDemo
        ("No Section 9 plotting functions detected in " ++
          "ee_105_group_project.py. Showing demo chart instead.")) ∧
    (mod = none →
      sectionFunctions mod "section8" explicitNames8 = [] ∧
      sectionFunctions mod "section9" explicitNames9 = []) ∧
    (greenBondsPage mod u8 u9).section10Rendered = true ∧
    (greenBondsPage mod u8 u9).footerRendered = true := by
  refine ⟨?_, ?_, ?_, rfl, rfl⟩
  · intro h
    show renderSection "Section 8" (sectionFunctions mod "section8" explicitNames8) = _
    rw [h]
    rfl
  · intro h
    show renderSection "Section 9" (sectionFunctions mod "section9" explicitNames9) = _
    rw [h]
    rfl
  · intro h
    subst h
    exact ⟨rfl, rfl⟩

/-- Witness for C5 at a concrete module holding no plotting functions:
Section 8 falls back to the demo chart with the warning, and Section 10
still renders; applying the theorem to a missing module likewise yields
both empty function lists. -/
theorem claim_c5_fallback_demo_witness :
    (greenBondsPage (some pmodNoPlots) none none).section8 = .fallbackDemo
      ("No Section 8 plotting functions detected in " ++
        "ee_105_group_project.py. Showing demo chart instead.") ∧
    (greenBondsPage (some pmodNoPlots) none none).section10Rendered = true ∧
    (sectionFunctions none "section8" explicitNames8 = [] ∧
      sectionFunctions none "section9" explicitNames9 = []) :=
  ⟨(claim_c5_fallback_demo (some pmodNoPlots) none none).1 (by decide),
   (claim_c5_fallback_demo (some pmodNoPlots) none none).2.2.2.1,
   (claim_c5_fallback_demo none none none).2.2.1 rfl⟩

/-- Claim C6: after the basic clean, no row has a missing country or a
missing year, every year value is (the rational image of) an integer, and
every input row whose country and year are both present is retained (in
its year-coerced form). -/
theorem claim_c6_basic_clean_invariants (rows : List Row) :
    (∀ r ∈ basicClean rows,
        r.country.isSome = true ∧ r.year.isSome = true ∧
          ∃ n : ℤ, r.year = some (n : ℚ)) ∧
    (∀ r ∈ rows, r.country.isSome = true → r.year.isSome = true →
        coerceYear r ∈ basicClean rows) := by
  constructor
  · intro r hr
    obtain ⟨hc, n, hn⟩ := mem_basicClean rows r hr
    exact ⟨hc, by rw [hn]; rfl, n, hn⟩
  · intro r hr hc hy
    exact basicClean_retains rows r hr hc hy

/-- Witness for C6 on concrete rows: the row with country "China" and
float year 2015.5 is retained with integer year, the row with a missing
country is gone. -/
theorem claim_c6_basic_clean_invariants_witness :
    (coerceYear rHalfYear ∈ basicClean [rHalfYear, rNoCountry]) ∧
    ((coerceYear rHalfYear).country.isSome = true ∧
      ∃ n : ℤ, (coerceYear rHalfYear).year = some (n : ℚ)) :=
  ⟨(claim_c6_basic_clean_invariants [rHalfYear, rNoCountry]).2 rHalfYear
      (by decide) (by decide) (by decide),
   ⟨((claim_c6_basic_clean_invariants [rHalfYear, rNoCountry]).1
       (coerceYear rHalfYear) (by decide)).1,
    ((claim_c6_basic_clean_invariants [rHalfYear, rNoCountry]).1
       (coerceYear rHalfYear) (by decide)).2.2⟩⟩

/-- Claim C7: the cleaning transformation (drop rows with missing
country/year, then coerce year to integer) is idempotent. -/
theorem claim_c7_basic_clean_idempotent (rows : List Row) :
    basicClean (basicClean rows) = basicClean rows :=
  basicClean_idem rows

/-- Claim C8: every function returned by `find_plot_functions` has a name
that, once lowercased, either starts with the section's name pattern, or
starts with "plot" and contains the section's name pattern; and with no
module (`None`) the returned list is empty. -/
theorem claim_c8_find_plot_functions_names :
    (∀ (mod : Option PyModule) (sectionPre : String) (f : PyFun),
        f ∈ find_plot_functions mod sectionPre →
          chMatch sectionPre.data (lowerStr f.name).data = true ∨
            (chMatch "plot".data (lowerStr f.name).data = true ∧
              strContains (lowerStr f.name) sectionPre = true)) ∧
    (∀ sectionPre : String, find_plot_functions none sectionPre = []) := by
  constructor
  · intro mod sectionPre f hf
    cases mod with
    | none => exact absurd hf (by simp [find_plot_functions])
    | some m =>
      rw [find_plot_functions, List.mem_filter] at hf
      have hmatch := ((Bool.and_eq_true _ _) ▸ hf.2).1
      rw [nameMatch] at hmatch
      simp only [Bool.or_eq_true, Bool.and_eq_true] at hmatch
      exact hmatch
  · intro sectionPre
    rfl

/-- Witness for C8 at a concrete module and discovered function. -/
theorem claim_c8_find_plot_functions_names_witness :
    (chMatch "section8".data (lowerStr "plot_section8_graph1").data = true ∨
      (chMatch "plot".data (lowerStr "plot_section8_graph1").data = true ∧
        strContains (lowerStr "plot_section8_graph1") "section8" = true)) ∧
    find_plot_functions none "section8" = [] :=
  ⟨claim_c8_find_plot_functions_names.1 (some pmodPlots) "section8"
      { name := "plot_section8_graph1", sigOk := true, hasSavefigAttr := false }
      (by decide),
   claim_c8_find_plot_functions_names.2 "section8"⟩

/-- Claim C9: an exception raised while invoking a plotting function is
caught inside `run_and_capture_plot` — the result is never a crash — and
a non-`TypeError` exception is surfaced as exactly an `st.warning`. -/
theorem claim_c9_plot_invocation_never_crashes (fn : PyFun) (call : CallOutcome) :
    (run_and_capture_plot fn call).isCrash = false ∧
    (∀ msg, run_and_capture_plot fn (.raisesOther msg) =
        .warned ("Error when running " ++ fn.name ++ ": " ++ msg)) := by
  constructor
  · cases call with
    | returnsFig => rfl
    | returnsOther => rfl
    | raisesTypeError m =>
      cases h : fn.hasSavefigAttr <;>
        simp [run_and_capture_plot, h, RenderOutcome.isCrash]
    | raisesOther m => rfl
  · intro msg
    rfl

/-- Claim C10: when the table has a population column, every row of the
top-10 per-capita ranking has population strictly above one million, and
a row whose population is at most one million never reaches the ranking,
whatever its `co2_per_capita`. -/
theorem claim_c10_population_cutoff (t : Table) (y : ℤ)
    (hpop : t.columns.contains "population" = true) :
    (∀ r ∈ tab10Top t y, ∃ p : ℚ, r.population = some p ∧ 1000000 < p) ∧
    (∀ (r : Row) (p : ℚ), r.population = some p → p ≤ 1000000 →
        r ∉ tab10Top t y) := by
  have key : ∀ r ∈ tab10Top t y, ∃ p : ℚ, r.population = some p ∧ 1000000 < p := by
    intro r hr
    have hc := mem_tab10Candidates t y r
      (mem_of_mem_nlargest pcKey 10 (tab10Candidates t y) r hr)
    have hfilter := hc.2.2.2.2.1 hpop
    rw [popGtMillion] at hfilter
    cases hp : r.population with
    | none => rw [hp] at hfilter; exact absurd hfilter (by simp)
    | some p =>
      rw [hp] at hfilter
      exact ⟨p, rfl, of_decide_eq_true hfilter⟩
  refine ⟨key, ?_⟩
  intro r p hp hle hr
  obtain ⟨p', hp', hgt⟩ := key r hr
  rw [hp] at hp'
  cases Option.some.inj hp'
  exact absurd hgt (not_lt_of_le hle)

/-- Witness for C10 on the sample table: Qatar (population 2.7 million)
is in the per-capita top 10 with population above the cutoff, and
Tinyland (population 50 000) is excluded despite the highest
`co2_per_capita` of the table. -/
theorem claim_c10_population_cutoff_witness :
    (∃ p : ℚ, rQatar.population = some p ∧ 1000000 < p) ∧
    rTiny ∉ tab10Top sampleTable 2014 :=
  ⟨(claim_c10_population_cutoff sampleTable 2014 (by decide)).1 rQatar (by decide),
   (claim_c10_population_cutoff sampleTable 2014 (by decide)).2 rTiny 50000
     rfl (by decide)⟩
